import Mathlib

/-!
Verification development for the multi-agent coding pipeline.

The Python source is embedded shallowly: strings are Lean `String`s
(manipulated through their `List Char` data, which mirrors Python's
code-point view of `str`), dictionaries with fixed key sets are
structures, and the model-invocation boundary is abstracted as explicit
outcome parameters.  The fixed regular expressions of the source are
embedded as direct scanners over `List Char`; each scanner's doc comment
records which pattern of the source it implements.  Character classes and
case folding are modelled at the ASCII level, which is exact for the
ASCII-only patterns appearing in the source.
-/

/-- Whitespace stripped by Python's `str.strip()` (ASCII part). -/
def pyIsStripSpace (c : Char) : Bool :=
  c = ' ' || c = '\t' || c = '\n' || c = '\r' || c = '\x0b' || c = '\x0c'

/-- Python `str.strip()` on the code-point list of a string. -/
def stripL (l : List Char) : List Char :=
  ((l.dropWhile pyIsStripSpace).reverse.dropWhile pyIsStripSpace).reverse

/-- Python word character for `\b` boundaries (`[a-zA-Z0-9_]`; the
source's inputs of interest are ASCII). -/
def isWordChar (c : Char) : Bool :=
  c.isAlphanum || c = '_'

/-- Case-sensitive prefix test: does the first list start with the second? -/
def listStartsWith : List Char → List Char → Bool
  | _, [] => true
  | [], _ :: _ => false
  | c :: cs, d :: ds => (c = d) && listStartsWith cs ds

/-- Case-insensitive prefix test (ASCII case folding, modelling
`re.IGNORECASE` on the source's ASCII patterns). -/
def startsWithCI : List Char → List Char → Bool
  | _, [] => true
  | [], _ :: _ => false
  | c :: cs, d :: ds => (c.toLower = d.toLower) && startsWithCI cs ds

/-- Python `needle in hay` substring containment. -/
def containsSub (needle : List Char) : List Char → Bool
  | [] => listStartsWith [] needle
  | c :: cs => listStartsWith (c :: cs) needle || containsSub needle cs

/-- Word-boundary condition to the left of a match: start of string or a
non-word character. -/
def boundaryOk : Option Char → Bool
  | none => true
  | some c => !isWordChar c

/-- Word-boundary condition to the right of a match: end of string or a
non-word character. -/
def endBoundary : List Char → Bool
  | [] => true
  | c :: _ => !isWordChar c

/-- One alternative of a `\b(...)\b` pattern matches at the current
position (`prev` is the character just before the position). -/
def hereWordMatch (prev : Option Char) (alt s : List Char) : Bool :=
  boundaryOk prev && startsWithCI s alt && endBoundary (s.drop alt.length)

/-- Search for a word-boundary-delimited, case-insensitive occurrence of
`alt` anywhere in the remaining input. -/
def searchWordFrom (alt : List Char) : Option Char → List Char → Bool
  | prev, [] => hereWordMatch prev alt []
  | prev, c :: cs => hereWordMatch prev alt (c :: cs) || searchWordFrom alt (some c) cs

/-- Embedding of `re.search` for a pattern of the form
`\b(alt1|alt2|...)\b` with `re.IGNORECASE`, as used by
`RequirementAnalysisAgent._detect_ambiguity`. -/
def regexWordSearch (alts : List String) (s : String) : Bool :=
  alts.any (fun a => searchWordFrom a.data none s.data)

/-- The `vague_terms` pattern list of `_detect_ambiguity`, each pattern
given by its alternatives. -/
def vague_terms : List (List String) :=
  [["user-friendly", "user friendly"],
   ["fast", "quick", "quickly"],
   ["good", "better", "best"],
   ["easy", "simple", "easily"],
   ["nice", "nice-looking", "pretty"],
   ["some", "various", "multiple", "several"],
   ["should", "could", "might", "may"]]

/-- The `missing_patterns` pattern list of `_detect_ambiguity`. -/
def missing_patterns : List (List String) :=
  [["input", "output"],
   ["error", "exception", "handle"],
   ["platform", "os", "operating system"],
   ["performance", "speed", "time"]]

/-- Number of vague-term patterns that match the input
(`vague_count` in `_detect_ambiguity`). -/
def vagueCount (user_input : String) : Nat :=
  (vague_terms.filter (fun p => regexWordSearch p user_input)).length

/-- Number of missing-topic patterns that do NOT match the input
(`missing_count` in `_detect_ambiguity`). -/
def missingCount (user_input : String) : Nat :=
  (missing_patterns.filter (fun p => !regexWordSearch p user_input)).length

/-- Result record of `_detect_ambiguity`. -/
structure AmbiguityInfo where
  is_ambiguous : Bool
  vague_terms_found : Nat
  missing_specifications : Nat
  input_length : Nat
deriving Repr, DecidableEq

/-- Embedding of `RequirementAnalysisAgent._detect_ambiguity`.  Note the
ambiguity decision uses `len(user_input.strip())` (the stripped length)
while the reported `input_length` is the raw length. -/
def detect_ambiguity (user_input : String) : AmbiguityInfo :=
  { is_ambiguous :=
      decide (vagueCount user_input > 2) || decide (missingCount user_input > 2)
        || decide ((stripL user_input.data).length < 50),
    vague_terms_found := vagueCount user_input,
    missing_specifications := missingCount user_input,
    input_length := user_input.data.length }

/-- Normalized clarifying-question triple (the dictionary with keys
`question`, `assumption`, `code` that `analyze` produces). -/
structure ClarifyingQuestion where
  question : String
  assumption : String
  code : String
deriving Repr, DecidableEq

/-- Raw clarifying-question entry as it may appear in the parsed model
payload: a dictionary with optional keys (`none` models a missing key),
a plain string (legacy format), or any other value (skipped by the
normalization loop, which only handles `dict` and `str`). -/
inductive CQRaw
  | obj (question assumption code : Option String)
  | plain (s : String)
  | other
deriving Repr, DecidableEq

/-- Embedding of one iteration of the clarifying-question normalization
loop in `RequirementAnalysisAgent.analyze` (lines 243-257): a dict entry
is completed with empty-string defaults for missing keys, a plain string
is upgraded to a triple with the placeholder assumption and code texts,
and anything else produces no entry. -/
def normalize_question : CQRaw → Option ClarifyingQuestion
  | .obj q a c => some ⟨q.getD "", a.getD "", c.getD ""⟩
  | .plain s => some ⟨s, "Assumption not specified", "# No code example provided"⟩
  | .other => none

/-- The full normalization pass over the raw clarifying-question list. -/
def normalize_questions (qs : List CQRaw) : List ClarifyingQuestion :=
  qs.filterMap normalize_question

/-- Re-reading an already-normalized triple as a raw entry: a dictionary
in which all three keys are present. -/
def asRawEntry (q : ClarifyingQuestion) : CQRaw :=
  .obj (some q.question) (some q.assumption) (some q.code)

/-- Requirement record as parsed from the model payload, before
normalization (the `requirements` dictionary in `analyze`; a missing
`programming_language` key is modelled by the empty string, matching the
code's `requirements.get("programming_language", "")`). -/
structure RawRequirements where
  functional_requirements : List String
  non_functional_requirements : List String
  assumptions : List String
  constraints : List String
  programming_language : String
  clarifying_questions : List CQRaw
  ambiguity_detected : Bool
  ambiguity_notes : String
deriving Repr, DecidableEq

/-- Embedding of `RequirementAnalysisAgent._parse_fallback`: the synthetic
record returned when structured parsing of the response fails.  Its
single functional requirement is the raw unparsed response text. -/
def parse_fallback (content : String) : RawRequirements :=
  { functional_requirements := [content],
    non_functional_requirements := [],
    assumptions := ["Could not parse structured requirements - using raw input"],
    constraints := [],
    programming_language := "python",
    clarifying_questions :=
      [.obj (some "Could not parse structured requirements")
            (some "Using raw input as requirement")
            (some "# JSON parsing failed - requirements may be incomplete")],
    ambiguity_detected := true,
    ambiguity_notes := "JSON parsing failed - requirements may be incomplete" }

/-- Embedding of the span selection in `analyze` (lines 227-231):
`json_start = content.find("{")`, `json_end = content.rfind("}") + 1`,
and the slice `content[json_start:json_end]` is used when
`json_start >= 0 and json_end > json_start`.  Formulated on the
code-point list: take the suffix from the first brace, then cut it after
the last closing brace; either part being empty means the slice is not
taken and the fallback parser runs instead. -/
def braceSpanL (l : List Char) : Option (List Char) :=
  let s := l.dropWhile (fun c => c != '{')
  let t := (s.reverse.dropWhile (fun c => c != '}')).reverse
  match s, t with
  | [], _ => none
  | _ :: _, [] => none
  | _ :: _, _ :: _ => some t

/-- Scan for the end of a balanced brace span, used by the spec-modelled
extractor below.  `depth` counts currently open braces; `acc` accumulates
the span in reverse. -/
def balancedTake (depth : Nat) (acc : List Char) : List Char → Option (List Char)
  | [] => none
  | c :: cs =>
    if c = '{' then balancedTake (depth + 1) (c :: acc) cs
    else if c = '}' then
      if depth = 1 then some (c :: acc).reverse
      else balancedTake (depth - 1) (c :: acc) cs
    else balancedTake depth (c :: acc) cs

/-- Modelled from the spec: "extract the first balanced \x7b...\x7d span"
of the response text, i.e. from the first opening brace to its matching
closing brace.  This is the comparison point for the refinement claim
about the analyzer's span extraction; the source itself slices from the
first opening brace to the LAST closing brace (see `braceSpanL`). -/
def specFirstBalancedSpan (l : List Char) : Option (List Char) :=
  match l.dropWhile (fun c => c != '{') with
  | [] => none
  | s => balancedTake 0 [] s

/-- Embedding of the structured-payload parse step of `analyze`
(lines 226-236).  `jsonParse` abstracts `json.loads` restricted to the
payload shape: `none` models a `JSONDecodeError`.  Whether the slice is
missing or the parse fails, the fallback record is returned; the step
never fails. -/
def parseRequirements (jsonParse : String → Option RawRequirements) (content : String) :
    RawRequirements :=
  match braceSpanL content.data with
  | some span =>
    match jsonParse (String.mk span) with
    | some r => r
    | none => parse_fallback content
  | none => parse_fallback content

/-- ASCII upper-casing of a code-point list, modelling Python's
`str.upper()` on the ASCII texts the review contract is about. -/
def upperL (l : List Char) : List Char :=
  l.map Char.toUpper

/-- Embedding of the verdict computation at the end of
`CodeReviewAgent.review` (lines 115-119): the response is stripped, the
approval flag is `feedback.upper().startswith("APPROVED")`, and the
stripped response is returned as the feedback. -/
def review_verdict (response : String) : Bool × String :=
  let feedback := stripL response.data
  (listStartsWith (upperL feedback) "APPROVED".data, String.mk feedback)

/-- Outcome of one `generate_reply` call: `None`, a raised exception, or
a response carrying content text. -/
inductive AttemptOutcome
  | noResp
  | failure
  | reply (content : String)
deriving Repr, DecidableEq

/-- Result of a stage's retry loop: success with the accepted content, or
one of the three terminal errors raised after retries (None response,
empty content, exception).  Each carries the backoff sleeps performed,
in order. -/
inductive InvokeResult
  | ok (content : String) (sleeps : List Nat)
  | errNone (sleeps : List Nat)
  | errEmpty (sleeps : List Nat)
  | errFailed (sleeps : List Nat)
deriving Repr, DecidableEq

/-- Record a backoff sleep performed before the rest of the run. -/
def addSleep (w : Nat) : InvokeResult → InvokeResult
  | .ok c ws => .ok c (w :: ws)
  | .errNone ws => .errNone (w :: ws)
  | .errEmpty ws => .errEmpty (w :: ws)
  | .errFailed ws => .errFailed (w :: ws)

/-- Embedding of the per-stage retry loop (`for attempt in
range(max_retries)`), parameterized by the attempt outcomes.  `attempt`
is the current index, `fuel` the number of attempts still available
(initially `max_retries`), so the source's `attempt < max_retries - 1`
test is `fuel` not reaching its last unit.  With `retryOnEmpty := true`
this is the loop of `RequirementAnalysisAgent.analyze` (lines 185-216),
`CodingAgent.generate_code` (251-299), `TestGenerationAgent.
generate_tests` (264-330) and `DocumentationAgent.generate_documentation`
(199-229), which all retry when the content is empty after stripping;
with `retryOnEmpty := false` it is the loop of `CodeReviewAgent.review`
(95-114), which accepts any non-`None` response as success. -/
def invokeLoop (retryOnEmpty : Bool) (outcomes : Nat → AttemptOutcome) :
    Nat → Nat → InvokeResult
  | _, 0 => .errFailed []
  | attempt, fuel + 1 =>
    match outcomes attempt with
    | .noResp =>
      if fuel = 0 then .errNone []
      else addSleep (2 ^ attempt) (invokeLoop retryOnEmpty outcomes (attempt + 1) fuel)
    | .failure =>
      if fuel = 0 then .errFailed []
      else addSleep (2 ^ attempt) (invokeLoop retryOnEmpty outcomes (attempt + 1) fuel)
    | .reply s =>
      if retryOnEmpty && stripL s.data = [] then
        if fuel = 0 then .errEmpty []
        else addSleep (2 ^ attempt) (invokeLoop retryOnEmpty outcomes (attempt + 1) fuel)
      else .ok s []

/-- A stage's full retry run: `max_retries = 3` attempts starting at
attempt 0. -/
def stageInvoke (retryOnEmpty : Bool) (outcomes : Nat → AttemptOutcome) : InvokeResult :=
  invokeLoop retryOnEmpty outcomes 0 3

/-- The fence delimiter of markdown code blocks. -/
def fenceS : String := "```"

/-- Whitespace matched by the regex class `\s` (ASCII part), used in the
fenced-block patterns. -/
def pyIsSpace (c : Char) : Bool :=
  c = ' ' || c = '\t' || c = '\n' || c = '\r' || c = '\x0b' || c = '\x0c'

/-- Match the `\s*\n` part of the fenced-block openers: the greedy run of
whitespace must contain a newline, and the captured group starts after
the last newline of that run.  `best` remembers the suffix after the most
recent newline seen; scanning stops at the first non-whitespace
character. -/
def afterWsNlAux (best : Option (List Char)) : List Char → Option (List Char)
  | [] => best
  | c :: cs =>
    if c = '\n' then afterWsNlAux (some cs) cs
    else if pyIsSpace c then afterWsNlAux best cs
    else best

/-- Lower-case ASCII letter, the character class `[a-z]` of the generic
fenced-block pattern. -/
def isAsciiLower (c : Char) : Bool :=
  'a' ≤ c && c ≤ 'z'

/-- Try to match a tagged fence opener (the `` ```python\s*\n `` part of
pattern `` ```python\s*\n(.*?)(?:```|$) ``) at the current position;
on success return the suffix where the captured group starts. -/
def fenceOpen (tag : List Char) (l : List Char) : Option (List Char) :=
  if listStartsWith l (fenceS.data ++ tag) then
    afterWsNlAux none (l.drop (fenceS.data.length + tag.length))
  else none

/-- Try to match the generic fence opener (the `` ```(?:[a-z]+)?\s*\n ``
part of the untagged pattern) at the current position.  The optional
`[a-z]+` tag is greedy, and shortening it cannot help the `\s*\n` that
follows, so the maximal lower-case run is skipped. -/
def genericOpen (l : List Char) : Option (List Char) :=
  if listStartsWith l fenceS.data then
    afterWsNlAux none ((l.drop fenceS.data.length).dropWhile isAsciiLower)
  else none

/-- Take the lazily-captured group `(.*?)(?:```|$)`: everything up to the
first closing fence, or to the end of input when no fence follows.  The
second component is the suffix after the closing fence (where `finditer`
resumes), or `none` when the block was closed by the end of input. -/
def takeUntilFence : List Char → List Char × Option (List Char)
  | [] => ([], none)
  | c :: cs =>
    if listStartsWith (c :: cs) fenceS.data then ([], some ((c :: cs).drop fenceS.data.length))
    else
      let r := takeUntilFence cs
      (c :: r.1, r.2)

/-- Scan the whole input for fenced blocks, collecting the captured
groups in order.  `tag = some t` scans for blocks opened by `` ``` ``
followed by the literal tag `t` (pattern 1 of `_extract_code_blocks`,
with `t = "python"`); `tag = none` scans for generically tagged or
untagged blocks (pattern 2).  `fuel` bounds the recursion; every step
consumes at least one input character, so `input.length + 1` units are
always sufficient. -/
def scanFenced (tag : Option (List Char)) : Nat → List Char → List (List Char)
  | 0, _ => []
  | _ + 1, [] => []
  | fuel + 1, c :: cs =>
    match (match tag with
           | some t => fenceOpen t (c :: cs)
           | none => genericOpen (c :: cs)) with
    | some r =>
      let g := takeUntilFence r
      match g.2 with
      | some rest => g.1 :: scanFenced tag fuel rest
      | none => [g.1]
    | none => scanFenced tag fuel cs

/-- Stripped, non-empty captured groups (the loop body `code =
match.group(1).strip(); if code: code_blocks.append(code)`). -/
def blocksClean (bs : List (List Char)) : List (List Char) :=
  (bs.map stripL).filter (fun b => b ≠ [])

/-- The `` ```python ``-tagged blocks collected by pattern 1 of
`CodingAgent._extract_code_blocks`. -/
def pythonBlocks (content : String) : List (List Char) :=
  blocksClean (scanFenced (some "python".data) (content.data.length + 1) content.data)

/-- The generic fenced blocks collected by pattern 2 of
`CodingAgent._extract_code_blocks`. -/
def genericBlocks (content : String) : List (List Char) :=
  blocksClean (scanFenced none (content.data.length + 1) content.data)

/-- One line looks like code: stripped, it starts with one of the
definition keywords (the tuple in pattern 3's `any(...)`). -/
def lineLooksLikeCode (l : List Char) : Bool :=
  listStartsWith l "def ".data || listStartsWith l "class ".data ||
  listStartsWith l "import ".data || listStartsWith l "from ".data

/-- Pattern 3 of `_extract_code_blocks`: the stripped content's lines
suggest bare code (first line starts with an import/definition keyword or
a comment, or one of the first five lines starts, after stripping, with a
definition keyword). -/
def pattern3Hit (content : String) : Bool :=
  match (stripL content.data).splitOn '\n' with
  | [] => false
  | first :: rest =>
    listStartsWith first "import ".data || listStartsWith first "from ".data ||
    listStartsWith first "def ".data || listStartsWith first "class ".data ||
    listStartsWith first "#".data ||
    ((first :: rest).take 5).any (fun ln => lineLooksLikeCode (stripL ln))

/-- Embedding of `CodingAgent._extract_code_blocks` (lines 338-387):
prefer `` ```python `` blocks, else generic fenced blocks; when blocks
were found join them with a blank-line separator; when none were found
return the stripped content (pattern 3's early return and the final
fallback coincide). -/
def extract_code_blocks (content : String) : String :=
  if content.data = [] then ""
  else
    let code_blocks :=
      if pythonBlocks content ≠ [] then pythonBlocks content else genericBlocks content
    if code_blocks = [] ∧ pattern3Hit content then String.mk (stripL content.data)
    else if code_blocks ≠ [] then String.mk (List.intercalate "\n\n".data code_blocks)
    else String.mk (stripL content.data)

/-- The code-likeness tokens of the safety net in
`CodingAgent.generate_code` (line 312). -/
def codeKeywords : List String :=
  ["def ", "class ", "import ", "from ", "# File:"]

/-- The safety net's `any(keyword in code for keyword in [...])`. -/
def containsCodeToken (code : String) : Bool :=
  codeKeywords.any (fun k => containsSub k.data code.data)

/-- Embedding of the post-processing of a successful generation response
in `CodingAgent.generate_code` (lines 301-316).  The float comparison
`len(extracted_code) < len(code) * 0.3` is modelled exactly as the
rational comparison `10 * len(extracted) < 3 * len(code)`; the two agree
for every input of realistic size (they can only differ when the length
reaches the order of 10^15, where double rounding of `len * 0.3` exceeds
the distance to the nearest integer). -/
def generate_post (code : String) : String :=
  let extracted := extract_code_blocks code
  if 10 * extracted.data.length < 3 * code.data.length ∧ code.data.length > 200 then
    if containsCodeToken code then String.mk (stripL code.data)
    else if extracted.data ≠ [] then extracted else String.mk (stripL code.data)
  else if extracted.data ≠ [] then extracted else String.mk (stripL code.data)

/-- Previous pipeline results as read by the context section of
`RequirementAnalysisAgent.analyze`: the previous requirement record (if
the `requirements` entry is present and non-empty) and the previous
code text. -/
structure PrevResults where
  requirements : Option RawRequirements
  code : String
deriving Repr, DecidableEq

/-- Conversation context handed from the UI layer into the pipeline
(`st.session_state.conversation_context`). -/
structure ConversationContext where
  previous_prompts : List String
  previous_results : Option PrevResults
  is_active : Bool
deriving Repr, DecidableEq

/-- Python `", ".join(...)` over a string list. -/
def joinComma (xs : List String) : String :=
  String.intercalate ", " xs

/-- The previous-code summary of `analyze` (lines 126-128): the first 200
characters with an ellipsis when longer. -/
def codeSummary (prev_code : String) : String :=
  if prev_code.data.length > 200 then String.mk (prev_code.data.take 200) ++ "..."
  else prev_code

/-- Embedding of the `context_section` computation in
`RequirementAnalysisAgent.analyze` (lines 112-129).  The section is
non-empty only when a context is supplied, its `is_active` flag is true,
and it carries previous prompts or previous results. -/
def contextSection (context : Option ConversationContext) : String :=
  match context with
  | none => ""
  | some ctx =>
    if ctx.is_active then
      if ctx.previous_prompts ≠ [] ∨ ctx.previous_results ≠ none then
        let s1 := "\n\nPREVIOUS CONTEXT:\n"
        let s2 :=
          if ctx.previous_prompts ≠ [] then
            "Previous prompt(s): " ++ (ctx.previous_prompts.getLast?.getD "") ++ "\n"
          else ""
        let s3 :=
          match ctx.previous_results with
          | none => ""
          | some pr =>
            (match pr.requirements with
             | some reqs =>
               "Previous functional requirements: " ++
                 joinComma (reqs.functional_requirements.take 3) ++ "\n"
             | none => "") ++
            (if pr.code ≠ "" then "Previous code summary: " ++ codeSummary pr.code ++ "\n"
             else "")
        s1 ++ s2 ++ s3 ++
          "\nThis is a follow-up request. Please update/modify the requirements based on the new input while maintaining consistency with the previous context.\n"
      else ""
    else ""

/-- Opening line of the analysis prompt f-string of `analyze`
(line 131). -/
def analysisPromptHead : String :=
  "Analyze the following user requirement and convert vague natural language into structured, actionable software requirements.\n"

/-- Fixed tail of the analysis prompt f-string of `analyze` (lines
136-176): the TASK, OUTPUT FORMAT and IMPORTANT sections.  This text is
a fixed template independent of the input and the context; it is kept as
one constant here (its JSON skeleton braces written as escapes). -/
def analysisPromptTail : String :=
  "\n\nTASK:\n1. **Detect Ambiguity**: Identify vague terms, missing details, unclear specifications\n2. **Generate Clarifying Questions**: Create specific questions to resolve any ambiguity (even if simulated/answered automatically)\n3. **Convert to Structured Requirements**: Transform the requirement into clear, testable requirements\n\nOUTPUT FORMAT:\nProvide your analysis as a JSON object with this exact structure:\n\x7b\n    \"functional_requirements\": [\"specific, testable functional requirements\"],\n    \"non_functional_requirements\": [\"non-functional requirements (performance, security, usability, scalability, etc.)\"],\n    \"assumptions\": [\"assumptions made when requirements are vague or incomplete\"],\n    \"constraints\": [\"constraints identified (technical, business, time, platform, etc.)\"],\n    \"programming_language\": \"detected programming language (e.g., 'python', 'javascript', 'java', 'cpp', 'go', 'rust', etc.) or 'python' if not specified\",\n    \"clarifying_questions\": [\n        \x7b\n            \"question\": \"the clarifying question text\",\n            \"assumption\": \"the assumption made to proceed without clarification\",\n            \"code\": \"code snippet or example showing how this assumption is implemented\"\n        \x7d\n    ],\n    \"ambiguity_detected\": true/false,\n    \"ambiguity_notes\": \"description of detected ambiguities and how assumptions were made to resolve them\"\n\x7d\n\nIMPORTANT FOR LANGUAGE DETECTION:\n- Detect the programming language from the user input\n- Look for explicit mentions: \"in Python\", \"using JavaScript\", \"Java code\", \"C++\", etc.\n- Look for language-specific terms: \"npm\" (JavaScript), \"pip\" (Python), \"package.json\" (JavaScript), \"pom.xml\" (Java), etc.\n- Look for file extensions mentioned: \".js\", \".py\", \".java\", \".cpp\", \".go\", \".rs\", etc.\n- If no language is specified, default to \"python\"\n- Common languages: python, javascript, typescript, java, cpp, csharp, go, rust, ruby, php, swift, kotlin\n\nIMPORTANT:\n- If ambiguity is detected, generate clarifying questions AND make reasonable assumptions\n- Each clarifying question MUST be an object with \"question\", \"assumption\", and \"code\" fields\n- The \"assumption\" field should explain what assumption was made to proceed with this question\n- The \"code\" field should contain a relevant code snippet, example, or comment showing how the assumption is implemented\n- Document all assumptions clearly\n- Ensure functional requirements are specific and testable\n- Include non-functional requirements even if not explicitly mentioned (make reasonable assumptions)\n- Be thorough and comprehensive"

/-- The analysis prompt built by `analyze`: header, context section, the
user requirement, and the fixed template tail. -/
def analyzePrompt (user_input : String) (context : Option ConversationContext) : String :=
  analysisPromptHead ++ contextSection context ++ "\nUSER REQUIREMENT:\n" ++ user_input ++
    analysisPromptTail

/-- The follow-up keyword list of `_heuristic_followup_detection` in
`app.py`. -/
def followupKeywords : List String :=
  ["change", "update", "modify", "add", "remove", "also", "instead",
   "make it", "can you", "please", "the code", "the previous",
   "above", "that", "it", "this", "same", "keep", "maintain"]

/-- ASCII lower-casing of a string, modelling Python's `str.lower()` on
the ASCII keyword checks of the heuristic. -/
def lowerS (s : String) : String :=
  String.mk (s.data.map Char.toLower)

/-- Embedding of `_heuristic_followup_detection` (app.py lines 205-231). -/
def heuristicFollowupDetection (new_prompt previous_prompt : String) : Bool :=
  let new_lower := lowerS new_prompt
  let _prev_lower := lowerS previous_prompt
  let keyword_count :=
    (followupKeywords.filter (fun k => containsSub k.data new_lower.data)).length
  if (stripL new_prompt.data).length < 50 ∧ keyword_count > 0 then true
  else if keyword_count ≥ 2 then true
  else if ["previous", "above", "that code", "the code", "same"].any
      (fun r => containsSub r.data new_lower.data) then true
  else false

/-- Embedding of `detect_follow_up` (app.py lines 131-202).  The LLM
classification call is abstracted by `llmReply`: `some content` models a
truthy response with the given content text, `none` models a falsy
response or a raised exception, both of which fall back to the
heuristic.  When the context is inactive or has no previous prompts the
function returns false without consulting the model at all. -/
def detect_follow_up (new_prompt : String) (previous_context : ConversationContext)
    (llmReply : Option String) : Bool :=
  if previous_context.is_active = false ∨ previous_context.previous_prompts = [] then false
  else
    let previous_prompt := previous_context.previous_prompts.getLast?.getD ""
    match llmReply with
    | some content =>
      let c := upperL (stripL content.data)
      containsSub "FOLLOWUP".data c || containsSub "FOLLOW-UP".data c
    | none => heuristicFollowupDetection new_prompt previous_prompt

/-- Input witnessing the gap between the raw and the stripped length in
the ambiguity pre-check: 27 visible characters naming enough of the
missing-topic patterns, padded with 23 trailing spaces to a raw length of
exactly 50. -/
def c1Input : String := "input output error platform" ++ String.mk (List.replicate 23 ' ')

/-- C1 as stated is false: this input has raw length 50 (not under 50),
zero vague-term hits and only one missing-topic miss, yet the pre-check
flags it ambiguous, because the source tests `len(user_input.strip())`
(the stripped length, here 27) rather than the raw length. -/
theorem C1_counterexample :
    (detect_ambiguity c1Input).is_ambiguous = true
    ∧ ¬(vagueCount c1Input > 2 ∨ missingCount c1Input > 2 ∨ c1Input.data.length < 50) := by
  decide

/-- C1 (amended): the pre-check flags ambiguity exactly when the
vague-term hit count exceeds 2, or the missing-topic miss count exceeds
2, or the STRIPPED input length is under 50 characters; in particular
every input whose stripped length is under 50 is flagged ambiguous. -/
theorem C1_theorem :
    (∀ s : String, (detect_ambiguity s).is_ambiguous =
      (decide (vagueCount s > 2) || decide (missingCount s > 2)
        || decide ((stripL s.data).length < 50)))
    ∧ (∀ s : String, (stripL s.data).length < 50 →
        (detect_ambiguity s).is_ambiguous = true) := by
  constructor
  · intro s
    rfl
  · intro s h
    simp [detect_ambiguity, h]

/-- Witness for C1_theorem: a concrete short input is flagged. -/
theorem C1_witness : (detect_ambiguity "Build a calculator").is_ambiguous = true :=
  C1_theorem.2 "Build a calculator" (by decide)

/-- A reviewer response with trailing whitespace. -/
def c2Response : String := "Missing null check on divisor.\n"

/-- C2 as stated is false in its feedback part: a non-approved response
is passed on STRIPPED, not verbatim — the trailing newline of this
response is removed from the returned feedback. -/
theorem C2_counterexample :
    (review_verdict c2Response).1 = false
    ∧ (review_verdict c2Response).2 ≠ c2Response := by
  decide

/-- C2 (amended): approval holds exactly when the stripped response,
upper-cased, starts with "APPROVED"; any other response is reported
unapproved with the STRIPPED response text as the feedback. -/
theorem C2_theorem (response : String) :
    ((review_verdict response).1 = true ↔
      listStartsWith (upperL (stripL response.data)) "APPROVED".data = true)
    ∧ (review_verdict response).2 = String.mk (stripL response.data) := by
  constructor
  · exact Iff.rfl
  · rfl

/-- C3 as stated is false for the review stage: an empty-content response
is accepted immediately as success with no retry (left run), unlike a
thrown failure, which is retried with a backoff sleep of 2^0 = 1 and then
succeeds with the second attempt's content (right run). -/
theorem C3_counterexample :
    stageInvoke false (fun n => if n = 0 then .reply "" else .reply "APPROVED") =
      .ok "" []
    ∧ stageInvoke false (fun n => if n = 0 then .failure else .reply "APPROVED") =
      .ok "APPROVED" [1] := by
  decide

/-- Retry runs only depend on the outcomes of the attempts not yet
made: two outcome streams agreeing from the current attempt on yield the
same run. -/
theorem invokeLoop_agree (b : Bool) (o₁ o₂ : Nat → AttemptOutcome) :
    ∀ (fuel a : Nat), (∀ n, a ≤ n → o₁ n = o₂ n) →
      invokeLoop b o₁ a fuel = invokeLoop b o₂ a fuel := by
  intro fuel
  induction fuel with
  | zero => intro a _; rfl
  | succ f ih =>
    intro a h
    have ha : o₁ a = o₂ a := h a le_rfl
    have hrec : invokeLoop b o₁ (a + 1) f = invokeLoop b o₂ (a + 1) f :=
      ih (a + 1) (fun n hn => h n (Nat.le_of_succ_le hn))
    simp only [invokeLoop, ha, hrec]

/-- C3 (amended): in the stages that retry on empty content (requirement
analysis, code generation, test generation, documentation generation), a
response that is empty after stripping is treated identically to a thrown
transport failure whenever a retry is still available: the runs obtained
by placing either outcome at the current attempt coincide (same backoff
sleeps, same final result).  The review stage instead accepts any
response, empty or not, as success (see the counterexample). -/
theorem C3_theorem (o : Nat → AttemptOutcome) (a f : Nat) (s : String)
    (hs : stripL s.data = []) :
    invokeLoop true (Function.update o a (.reply s)) a (f + 2) =
      invokeLoop true (Function.update o a .failure) a (f + 2) := by
  have h1 : Function.update o a (AttemptOutcome.reply s) a = .reply s :=
    Function.update_same a _ o
  have h2 : Function.update o a AttemptOutcome.failure a = .failure :=
    Function.update_same a _ o
  have hrec : invokeLoop true (Function.update o a (.reply s)) (a + 1) (f + 1) =
      invokeLoop true (Function.update o a .failure) (a + 1) (f + 1) := by
    apply invokeLoop_agree
    intro n hn
    have hna : n ≠ a := by omega
    simp [Function.update_noteq hna]
  have e1 : invokeLoop true (Function.update o a (.reply s)) a (f + 2) =
      addSleep (2 ^ a) (invokeLoop true (Function.update o a (.reply s)) (a + 1) (f + 1)) := by
    conv_lhs => rw [invokeLoop]
    rw [h1]
    simp [hs]
  have e2 : invokeLoop true (Function.update o a .failure) a (f + 2) =
      addSleep (2 ^ a) (invokeLoop true (Function.update o a .failure) (a + 1) (f + 1)) := by
    conv_lhs => rw [invokeLoop]
    rw [h2]
    simp
  rw [e1, e2, hrec]

/-- Witness for C3_theorem at attempt 0 with two attempts of fuel. -/
theorem C3_witness :
    stripL " ".data = [] ∧
      invokeLoop true (Function.update (fun _ => AttemptOutcome.reply "done") 0 (.reply " ")) 0 2 =
        invokeLoop true (Function.update (fun _ => AttemptOutcome.reply "done") 0 .failure) 0 2 :=
  ⟨by decide, C3_theorem (fun _ => .reply "done") 0 0 " " (by decide)⟩

/-- C4: whenever the structured parse of the response fails (no brace
slice, or `json.loads` raising on the slice), the analyzer returns the
synthetic fallback record — ambiguity forced true, exactly one functional
requirement equal to the raw unparsed response text, the parse failure
recorded in the ambiguity notes — and never an error (the parse step is a
total function). -/
theorem C4_theorem (jsonParse : String → Option RawRequirements) (content : String)
    (h : ∀ span, braceSpanL content.data = some span → jsonParse (String.mk span) = none) :
    parseRequirements jsonParse content = parse_fallback content
    ∧ (parseRequirements jsonParse content).ambiguity_detected = true
    ∧ (parseRequirements jsonParse content).functional_requirements = [content]
    ∧ (parseRequirements jsonParse content).ambiguity_notes =
        "JSON parsing failed - requirements may be incomplete" := by
  have hmain : parseRequirements jsonParse content = parse_fallback content := by
    unfold parseRequirements
    cases hb : braceSpanL content.data with
    | none => rfl
    | some span => simp [h span hb]
  refine ⟨hmain, ?_, ?_, ?_⟩ <;> rw [hmain] <;> rfl

/-- Witness for C4_theorem: a parse function rejecting everything. -/
theorem C4_witness :
    parseRequirements (fun _ => none) "not structured at all" =
      parse_fallback "not structured at all"
    ∧ (parseRequirements (fun _ => none) "not structured at all").ambiguity_detected = true
    ∧ (parseRequirements (fun _ => none) "not structured at all").functional_requirements =
        ["not structured at all"]
    ∧ (parseRequirements (fun _ => none) "not structured at all").ambiguity_notes =
        "JSON parsing failed - requirements may be incomplete" :=
  C4_theorem (fun _ => none) "not structured at all" (fun _ _ => rfl)

/-- A response whose payload sits in two separate brace groups. -/
def c5Content : String := "\x7ba\x7d \x7bb\x7d"

/-- C5 as stated is false: on a response containing two brace groups the
analyzer's slice runs from the first opening brace to the LAST closing
brace (covering both groups and the prose between them), which is not the
first balanced brace span. -/
theorem C5_counterexample :
    braceSpanL c5Content.data = some c5Content.data
    ∧ specFirstBalancedSpan c5Content.data = some "\x7ba\x7d".data
    ∧ c5Content.data ≠ "\x7ba\x7d".data := by
  decide

/-- Dropping while a predicate holds skips any leading block on which it
holds everywhere. -/
theorem dropWhile_append_of_forall {p : Char → Bool} (l₁ l₂ : List Char)
    (h : ∀ c ∈ l₁, p c = true) :
    (l₁ ++ l₂).dropWhile p = l₂.dropWhile p := by
  induction l₁ with
  | nil => rfl
  | cons c cs ih =>
    simp only [List.cons_append, List.dropWhile_cons, h c (by simp)]
    exact ih (fun d hd => h d (by simp [hd]))

/-- C5 (amended): when the response consists of prose without braces, an
opening brace, arbitrary middle text, a closing brace, and trailing prose
without closing braces, the analyzer extracts the span from that first
opening brace to that last closing brace and hands it to the structured
parser. -/
theorem C5_theorem (pre mid post : List Char) (h1 : '{' ∉ pre) (h2 : '}' ∉ post) :
    braceSpanL (pre ++ '{' :: (mid ++ '}' :: post)) = some ('{' :: (mid ++ ['}'])) := by
  have hs : (pre ++ '{' :: (mid ++ '}' :: post)).dropWhile (fun c => c != '{') =
      '{' :: (mid ++ '}' :: post) := by
    rw [dropWhile_append_of_forall pre _ (fun c hc => by
      simp only [bne_iff_ne, ne_eq]
      intro hcEq
      exact h1 (hcEq ▸ hc))]
    simp [List.dropWhile_cons]
  have hrev : ('{' :: (mid ++ '}' :: post)).reverse =
      post.reverse ++ '}' :: (mid.reverse ++ ['{']) := by
    simp
  have ht : (('{' :: (mid ++ '}' :: post)).reverse.dropWhile (fun c => c != '}')).reverse =
      '{' :: (mid ++ ['}']) := by
    rw [hrev, dropWhile_append_of_forall post.reverse _ (fun c hc => by
      simp only [bne_iff_ne, ne_eq]
      intro hcEq
      exact h2 (hcEq ▸ (List.mem_reverse.mp hc)))]
    simp [List.dropWhile_cons]
  simp only [braceSpanL, hs, ht]

/-- Witness for C5_theorem on a concrete response shape. -/
theorem C5_witness :
    braceSpanL ("x ".data ++ '{' :: ("a".data ++ '}' :: " y".data)) =
      some ('{' :: ("a".data ++ ['}'])) :=
  C5_theorem "x ".data "a".data " y".data (by decide) (by decide)

/-- A generation response containing a python-tagged and a
javascript-tagged fenced block. -/
def c6Content : String :=
  "```python\nprint(1)\n```\n```javascript\nconsole.log(2)\n```"

/-- Modelled from the spec: an extractor that prefers fenced blocks
tagged for the requirement record's language tag, else any fenced block,
multiple blocks joined with a blank-line separator.  Comparison point for
the refinement claim about `_extract_code_blocks`, whose preferred
pattern is the hard-coded literal `` ```python `` instead. -/
def specLanguageExtract (lang : String) (content : String) : String :=
  let lb := blocksClean (scanFenced (some lang.data) (content.data.length + 1) content.data)
  let blocks := if lb ≠ [] then lb else genericBlocks content
  if blocks ≠ [] then String.mk (List.intercalate "\n\n".data blocks)
  else String.mk (stripL content.data)

/-- C6 as stated is false: for a requirement record whose language tag is
"javascript", the source still extracts the `` ```python ``-tagged block
("print(1)") rather than the block tagged for the record's language
("console.log(2)") — the language tag plays no role in extraction. -/
theorem C6_counterexample :
    extract_code_blocks c6Content = "print(1)"
    ∧ specLanguageExtract "javascript" c6Content = "console.log(2)"
    ∧ ("print(1)" : String) ≠ "console.log(2)" := by
  decide

/-- C6 (amended): extraction prefers `` ```python ``-tagged fenced blocks
regardless of the requirement record's language tag; if none exist it
takes the generically tagged or untagged fenced blocks; multiple blocks
are concatenated with a blank-line separator; with no fenced block at all
the stripped response is returned (the looks-like-code early return and
the final fallback coincide). -/
theorem C6_theorem (content : String) :
    extract_code_blocks content =
      (if pythonBlocks content ≠ [] then
        String.mk (List.intercalate "\n\n".data (pythonBlocks content))
      else if genericBlocks content ≠ [] then
        String.mk (List.intercalate "\n\n".data (genericBlocks content))
      else String.mk (stripL content.data)) := by
  unfold extract_code_blocks
  by_cases hc : content.data = []
  · have hp : pythonBlocks content = [] := by
      simp [pythonBlocks, blocksClean, hc, scanFenced]
    have hg : genericBlocks content = [] := by
      simp [genericBlocks, blocksClean, hc, scanFenced]
    rw [if_pos hc]
    simp only [hp, hg]
    simp [hc]
    decide
  · rw [if_neg hc]
    by_cases hp : pythonBlocks content = []
    · by_cases hg : genericBlocks content = []
      · simp [hp, hg]
      · simp [hp, hg]
    · simp [hp]

/-- C7: when the raw generation response is longer than 200 characters,
the extracted payload is under 30% of the raw length, and the response
contains a code-likeness token, the stage returns the stripped raw
response rather than the extracted payload. -/
theorem C7_theorem (code : String)
    (h1 : code.data.length > 200)
    (h2 : 10 * (extract_code_blocks code).data.length < 3 * code.data.length)
    (h3 : containsCodeToken code = true) :
    generate_post code = String.mk (stripL code.data) := by
  simp only [generate_post]
  rw [if_pos ⟨h2, h1⟩, if_pos h3]

/-- A long prose-heavy response with a tiny fenced block and a code
token, triggering the safety net. -/
def c7Code : String :=
  String.mk (List.replicate 200 'a') ++ " def \n```python\nx=1\n```"

set_option maxRecDepth 40000 in
/-- Witness for C7_theorem. -/
theorem C7_witness : generate_post c7Code = String.mk (stripL c7Code.data) :=
  C7_theorem c7Code (by decide) (by decide) (by decide)

/-- C8 as stated is false: a legacy plain-string entry is upgraded with
the PLACEHOLDER texts "Assumption not specified" and "# No code example
provided", not with empty assumption and snippet texts. -/
theorem C8_counterexample :
    normalize_question (.plain "What input format should be accepted?") =
      some ⟨"What input format should be accepted?", "Assumption not specified",
        "# No code example provided"⟩
    ∧ ("Assumption not specified" : String) ≠ ""
    ∧ ("# No code example provided" : String) ≠ "" := by
  decide

/-- C8 (amended): every legacy plain-string entry is normalized into a
full triple whose question is the string itself and whose assumption and
code-snippet texts are the fixed placeholder texts. -/
theorem C8_theorem (s : String) :
    normalize_question (.plain s) =
      some ⟨s, "Assumption not specified", "# No code example provided"⟩ :=
  rfl

/-- C9: clarifying-question normalization is idempotent — re-normalizing
an already-normalized triple (read back as a dictionary entry with all
three keys present) returns the identical triple, both entry-wise and
over whole lists. -/
theorem C9_theorem :
    (∀ q : ClarifyingQuestion, normalize_question (asRawEntry q) = some q)
    ∧ ∀ qs : List CQRaw,
        normalize_questions ((normalize_questions qs).map asRawEntry) =
          normalize_questions qs := by
  have hq : ∀ q : ClarifyingQuestion, normalize_question (asRawEntry q) = some q :=
    fun q => rfl
  refine ⟨hq, fun qs => ?_⟩
  have hl : ∀ l : List ClarifyingQuestion,
      (l.map asRawEntry).filterMap normalize_question = l := by
    intro l
    induction l with
    | nil => rfl
    | cons q t ih => simp [List.filterMap_cons, hq, ih]
  exact hl (normalize_questions qs)

/-- C10: with an inactive conversation context, no previous-prompt data
influences the run — follow-up detection returns false whatever the model
would answer, and the analysis prompt is identical to the one built with
no context at all, whatever the previous prompts and results contain. -/
theorem C10_theorem (new_prompt user_input : String) (ctx : ConversationContext)
    (llmReply : Option String) (h : ctx.is_active = false) :
    detect_follow_up new_prompt ctx llmReply = false
    ∧ analyzePrompt user_input (some ctx) = analyzePrompt user_input none := by
  constructor
  · unfold detect_follow_up
    rw [if_pos (Or.inl h)]
  · unfold analyzePrompt contextSection
    simp [h]

/-- Context carrying non-trivial previous prompts and results but marked
inactive. -/
def c10Context : ConversationContext :=
  { previous_prompts := ["Build a calculator"],
    previous_results := some
      { requirements := some (parse_fallback "Build a calculator"),
        code := "def add(a, b):\n    return a + b" },
    is_active := false }

/-- Witness for C10_theorem on a concrete inactive context. -/
theorem C10_witness :
    detect_follow_up "also add a square root button" c10Context (some "FOLLOWUP") = false
    ∧ analyzePrompt "also add a square root button" (some c10Context) =
        analyzePrompt "also add a square root button" none :=
  C10_theorem "also add a square root button" "also add a square root button" c10Context
    (some "FOLLOWUP") rfl
